import Mathlib

/-
  Verification development for move_basic (src/src/move_basic.cpp).

  The numeric code is shallowly embedded over the real numbers: every C++
  double becomes a real, std::sqrt becomes Real.sqrt, std::min / std::max
  become min / max, and atan2 becomes Complex.arg.  The two control loops
  (MoveBasic::rotate and MoveBasic::moveLinear) are embedded as pure
  per-tick transition functions: mutable locals of the loop body become
  sequential let bindings, loop-carried variables become an explicit state
  record, and the external collaborators (transform lookups, collision
  checker, preemption flag, clock) become inputs of the tick function.
-/

namespace MoveBasic

open scoped Classical

noncomputable section

/-- Tunable parameters of the node, one field per C++ member that the
embedded control code reads (move_basic.cpp lines 70-107). -/
structure Params where
  minTurningVelocity : ℝ
  maxTurningVelocity : ℝ
  angularAcceleration : ℝ
  angularTolerance : ℝ
  maxLateralVelocity : ℝ
  maxLinearVelocity : ℝ
  linearAcceleration : ℝ
  linearTolerance : ℝ
  lateralKp : ℝ
  lateralKi : ℝ
  lateralKd : ℝ
  linGain : ℝ
  rotGain : ℝ
  velThreshold : ℝ
  abortTimeoutSecs : ℝ
  obstacleWaitThreshold : ℝ
  forwardObstacleThreshold : ℝ
  sideRecoverWeight : ℝ
  reverseWithoutTurningThreshold : ℝ

/-- Default parameter values from the constructor (move_basic.cpp lines
178-221), in the field order of Params. -/
def defaultParams : Params :=
  ⟨0.02, 1.0, 0.3, 0.01, 0.5, 0.5, 0.1, 0.1, 2.0, 0.0, 20.0, 1.0, 2.5,
   0.1, 5.0, 60.0, 0.5, 1.0, 0.5⟩

/-- Embedding of normalizeAngle (move_basic.cpp lines 146-154): two
sequential conditional adjustments of the angle by 2*pi.  The second test
reads the value produced by the first, exactly as the C++ mutation does. -/
def normalizeAngle (angle : ℝ) : ℝ :=
  let a1 := if angle < -Real.pi then angle + 2 * Real.pi else angle
  if Real.pi < a1 then a1 - 2 * Real.pi else a1

/-- Angles already in the closed interval from -pi to pi are fixed points
of normalizeAngle: neither branch of the embedded function fires. -/
theorem normalizeAngle_fixed (r : ℝ) (h1 : -Real.pi ≤ r) (h2 : r ≤ Real.pi) :
    normalizeAngle r = r := by
  simp only [normalizeAngle]
  rw [if_neg (not_lt.mpr h1), if_neg (not_lt.mpr h2)]

/-- Clamp of x to the interval from lo to hi, lower bound winning, which is
the convention of both inlined velocity expressions in the source. -/
def clamp (lo hi x : ℝ) : ℝ := max lo (min hi x)

/-- Velocity profile exactly as the specification writes it (spec section
4.3): v = clamp(min(gain * m, sqrt(2 * acceleration * m)), minV, maxV)
with m = min(abs remaining, abs obstacleLimit).  This definition follows
the words of the specification; it is compared against the two inlined
code expressions below. -/
def specSpeed (remaining obstacleLimit maxVelocity minVelocity gain acceleration : ℝ) : ℝ :=
  clamp minVelocity maxVelocity
    (min (gain * min |remaining| |obstacleLimit|)
         (Real.sqrt (2 * acceleration * min |remaining| |obstacleLimit|)))

/-- Angular velocity expression of MoveBasic::rotate (move_basic.cpp lines
585-587), applied to remaining = min(abs angleRemaining, abs obstacle). -/
def rotateVelocity (p : Params) (remaining : ℝ) : ℝ :=
  max p.minTurningVelocity
    (min (p.rotGain * remaining)
         (min p.maxTurningVelocity
              (Real.sqrt (2 * p.angularAcceleration * remaining))))

/-- Linear velocity expression of MoveBasic::moveLinear (move_basic.cpp
lines 691-692). -/
def linearVelocity (p : Params) (obstacleDist distRemaining : ℝ) : ℝ :=
  min (p.linGain * min |obstacleDist| |distRemaining|)
      (min p.maxLinearVelocity
           (Real.sqrt (2 * p.linearAcceleration * min |obstacleDist| |distRemaining|)))

/-- Claim C6: on every tick each controller computes its speed magnitude by
the shared profile clamp(min(gain * m, sqrt(2 * acceleration * m)), minV,
maxV) with m = min(abs remaining, abs obstacleLimit); the rotation
controller instantiates it with the angular gain, acceleration and
min/max turning velocities, and the linear controller with linGain,
linearAcceleration, floor 0 and maxLinearVelocity.  The linear instance
needs the (always satisfied in configuration) facts that the gain and the
velocity ceiling are nonnegative. -/
theorem velocity_profile_matches_spec (p : Params)
    (angleRemaining obstacle distRemaining obstacleDist : ℝ)
    (hg : 0 ≤ p.linGain) (hmax : 0 ≤ p.maxLinearVelocity) :
    rotateVelocity p (min |angleRemaining| |obstacle|) =
      specSpeed angleRemaining obstacle p.maxTurningVelocity
        p.minTurningVelocity p.rotGain p.angularAcceleration ∧
    linearVelocity p obstacleDist distRemaining =
      specSpeed distRemaining obstacleDist p.maxLinearVelocity 0
        p.linGain p.linearAcceleration := by
  constructor
  · simp only [rotateVelocity, specSpeed, clamp]
    rw [min_left_comm]
  · simp only [linearVelocity, specSpeed, clamp]
    have hm : min |distRemaining| |obstacleDist| = min |obstacleDist| |distRemaining| :=
      min_comm _ _
    rw [hm]
    have hmnn : (0:ℝ) ≤ min |obstacleDist| |distRemaining| :=
      le_min (abs_nonneg _) (abs_nonneg _)
    have hnn : (0:ℝ) ≤ min p.maxLinearVelocity
        (min (p.linGain * min |obstacleDist| |distRemaining|)
             (Real.sqrt (2 * p.linearAcceleration * min |obstacleDist| |distRemaining|))) :=
      le_min hmax (le_min (mul_nonneg hg hmnn) (Real.sqrt_nonneg _))
    rw [max_eq_right hnn, min_left_comm]

/-- Witness for velocity_profile_matches_spec: the hypotheses hold at the
default parameters and the equalities hold at concrete arguments. -/
theorem velocity_profile_matches_spec_witness :
    (0 ≤ defaultParams.linGain ∧ 0 ≤ defaultParams.maxLinearVelocity) ∧
    (rotateVelocity defaultParams (min |(1:ℝ)| |(2:ℝ)|) =
      specSpeed 1 2 defaultParams.maxTurningVelocity
        defaultParams.minTurningVelocity defaultParams.rotGain
        defaultParams.angularAcceleration ∧
    linearVelocity defaultParams 2 1 =
      specSpeed 1 2 defaultParams.maxLinearVelocity 0
        defaultParams.linGain defaultParams.linearAcceleration) :=
  ⟨⟨by norm_num [defaultParams], by norm_num [defaultParams]⟩,
   velocity_profile_matches_spec defaultParams 1 2 1 2
     (by norm_num [defaultParams]) (by norm_num [defaultParams])⟩

/-- Claim C7, counterexample: the input -pi lies in the claimed input range
from -3*pi to 3*pi, yet normalizeAngle maps it to -pi itself, which is not
strictly greater than -pi, so the output is not in the claimed half-open
interval. -/
theorem normalizeAngle_attains_neg_pi :
    (-(3 * Real.pi) ≤ -Real.pi ∧ -Real.pi ≤ 3 * Real.pi) ∧
    ¬(-Real.pi < normalizeAngle (-Real.pi)) := by
  have hpi := Real.pi_pos
  refine ⟨⟨by linarith, by linarith⟩, ?_⟩
  rw [normalizeAngle_fixed (-Real.pi) le_rfl (by linarith)]
  exact lt_irrefl _

/-- Claim C7 as amended: for every input in the range from -3*pi to 3*pi,
normalizeAngle returns a value in the closed interval from -pi to pi (the
endpoint -pi is attained, so the interval is closed rather than half-open),
the result differs from the input by exactly one of +2*pi, 0, -2*pi, and
normalizeAngle is idempotent on this range. -/
theorem normalizeAngle_range_idempotent (a : ℝ)
    (h1 : -(3 * Real.pi) ≤ a) (h2 : a ≤ 3 * Real.pi) :
    (-Real.pi ≤ normalizeAngle a ∧ normalizeAngle a ≤ Real.pi) ∧
    (normalizeAngle a = a + 2 * Real.pi ∨ normalizeAngle a = a ∨
      normalizeAngle a = a - 2 * Real.pi) ∧
    normalizeAngle (normalizeAngle a) = normalizeAngle a := by
  have hpi := Real.pi_pos
  have hbounds : -Real.pi ≤ normalizeAngle a ∧ normalizeAngle a ≤ Real.pi := by
    simp only [normalizeAngle]
    split_ifs with hlo hhi hhi
    · constructor <;> linarith
    · constructor <;> linarith
    · constructor <;> linarith
    · constructor <;> linarith
  have hcases : normalizeAngle a = a + 2 * Real.pi ∨ normalizeAngle a = a ∨
      normalizeAngle a = a - 2 * Real.pi := by
    simp only [normalizeAngle]
    split_ifs with hlo hhi hhi
    · exfalso; linarith
    · exact Or.inl rfl
    · exact Or.inr (Or.inr rfl)
    · exact Or.inr (Or.inl rfl)
  exact ⟨hbounds, hcases, normalizeAngle_fixed _ hbounds.1 hbounds.2⟩

/-- Witness for normalizeAngle_range_idempotent at the input 2*pi. -/
theorem normalizeAngle_range_idempotent_witness :
    (-(3 * Real.pi) ≤ 2 * Real.pi ∧ 2 * Real.pi ≤ 3 * Real.pi) ∧
    ((-Real.pi ≤ normalizeAngle (2 * Real.pi) ∧
        normalizeAngle (2 * Real.pi) ≤ Real.pi) ∧
      (normalizeAngle (2 * Real.pi) = 2 * Real.pi + 2 * Real.pi ∨
        normalizeAngle (2 * Real.pi) = 2 * Real.pi ∨
        normalizeAngle (2 * Real.pi) = 2 * Real.pi - 2 * Real.pi) ∧
      normalizeAngle (normalizeAngle (2 * Real.pi)) =
        normalizeAngle (2 * Real.pi)) := by
  have hpi := Real.pi_pos
  exact ⟨⟨by linarith, by linarith⟩,
    normalizeAngle_range_idempotent (2 * Real.pi) (by linarith) (by linarith)⟩

/-- Result of one tick of the rotation controller loop: the emitted
angular velocity and the loop-exit outcome. -/
structure RotateTickResult where
  velocity : ℝ
  done : Prop
  success : Prop

/-- Embedding of one iteration of the loop body of MoveBasic::rotate
(move_basic.cpp lines 568-610).  requestedYaw and currentYaw are the
absolute target and the freshly looked-up yaw, obstacleAngle is the
collision-checker query (argument: the sign test angleRemaining larger
than zero), preempt is the polled preemption flag.  The sequential
overwrites of velocity / done / success by the preempt check (lines
589-594) and then by the tolerance check (lines 596-601) are kept in
source order, so a later check overwrites the outcome of an earlier one. -/
def rotateTick (p : Params) (requestedYaw currentYaw : ℝ)
    (obstacleAngle : Bool → ℝ) (preempt : Bool) : RotateTickResult :=
  let angleRemaining := normalizeAngle (requestedYaw - currentYaw)
  let obstacle := obstacleAngle (if 0 < angleRemaining then true else false)
  let remaining := min |angleRemaining| |obstacle|
  let v0 := rotateVelocity p remaining
  let v1 := if preempt then 0 else v0
  let finish : Prop := |angleRemaining| < p.angularTolerance
  let v2 := if finish then 0 else v1
  let done : Prop := if finish then True else preempt = true
  let success : Prop := if finish then True else False
  let v3 := if angleRemaining < 0 then -v2 else v2
  ⟨v3, done, success⟩

/-- Claim C2, counterexample: a rotation tick on which preemption is
requested and the angle remaining is already within tolerance terminates
with success, because the tolerance check runs after the preempt check
and overwrites its failure outcome.  The claim says such a tick must stop
and fail. -/
theorem preempt_finish_tick_succeeds :
    (rotateTick defaultParams 0 0 (fun _ => 1) true).done ∧
    (rotateTick defaultParams 0 0 (fun _ => 1) true).success := by
  have h0 : normalizeAngle (0 - 0 : ℝ) = 0 := by
    rw [sub_zero]
    exact normalizeAngle_fixed 0 (by linarith [Real.pi_pos]) (le_of_lt Real.pi_pos)
  simp only [rotateTick, h0]
  norm_num [defaultParams]

/-- Claim C9: on every rotation tick without preemption whose remaining
angle is at least the angular tolerance, the magnitude of the emitted
angular velocity is at least minTurningVelocity, whatever angular
clearance the collision checker reports (including zero), because the
profile takes a max with the floor before the exit checks run. -/
theorem rotation_speed_floor (p : Params) (requestedYaw currentYaw : ℝ)
    (obstacleAngle : Bool → ℝ)
    (h : p.angularTolerance ≤ |normalizeAngle (requestedYaw - currentYaw)|) :
    p.minTurningVelocity ≤
      |(rotateTick p requestedYaw currentYaw obstacleAngle false).velocity| := by
  have hfin := not_lt.mpr h
  simp only [rotateTick, Bool.false_eq_true, if_false, if_neg hfin]
  have hv : ∀ r : ℝ, p.minTurningVelocity ≤ |rotateVelocity p r| := fun r =>
    le_trans (le_max_left _ _) (le_abs_self _)
  split_ifs <;> first
  | exact hv _
  | (rw [abs_neg]; exact hv _)

/-- Witness for rotation_speed_floor at a concrete tick whose reported
angular clearance is zero. -/
theorem rotation_speed_floor_witness :
    defaultParams.angularTolerance ≤ |normalizeAngle (1 - 0)| ∧
    defaultParams.minTurningVelocity ≤
      |(rotateTick defaultParams 1 0 (fun _ => 0) false).velocity| := by
  have h1 : normalizeAngle (1 - 0 : ℝ) = 1 := by
    rw [sub_zero]
    exact normalizeAngle_fixed 1 (by linarith [Real.pi_gt_three])
      (by linarith [Real.pi_gt_three])
  have h : defaultParams.angularTolerance ≤ |normalizeAngle (1 - 0 : ℝ)| := by
    rw [h1]; norm_num [defaultParams]
  exact ⟨h, rotation_speed_floor defaultParams 1 0 (fun _ => 0) h⟩

/-- Per-call constants of MoveBasic::moveLinear, computed once at entry
(move_basic.cpp lines 626-628): the forward flag and the requested
distance. -/
structure LinearCall where
  forward : Prop
  requestedDistance : ℝ

/-- Entry computation of the per-call constants from the origin of
goalInBase: forward is the sign test on x, requestedDistance is the
Euclidean norm of the full vector (tf2 length). -/
def linearCallOf (x y z : ℝ) : LinearCall :=
  ⟨0 < x, Real.sqrt (x * x + y * y + z * z)⟩

/-- Loop-carried state of MoveBasic::moveLinear (move_basic.cpp lines
629-640): PID accumulators, stall monitor and obstacle-pause state. -/
structure LinearState where
  lateralError : ℝ
  prevLateralError : ℝ
  lateralIntegral : ℝ
  prevDistRemaining : ℝ
  pausingForObstacle : Prop
  last : ℝ
  obstacleTime : ℝ

/-- Initial state at entry of moveLinear: zero PID accumulators,
prevDistRemaining seeded with the requested distance, not paused, last
progress time set to the entry time (obstacleTime is the default-epoch
ros Time). -/
def initialLinearState (requestedDistance now0 : ℝ) : LinearState :=
  ⟨0, 0, 0, requestedDistance, False, now0, 0⟩

/-- State of the no-progress monitor alone (prevDistRemaining and the
last-progress timestamp), as used by lines 727-738. -/
structure StallState where
  prevDistRemaining : ℝ
  last : ℝ

/-- Embedding of the no-progress check (move_basic.cpp lines 727-738): if
distRemaining exceeds prevDistRemaining, prevDistRemaining is raised to it
and the tick aborts when more than abortTimeoutSecs has passed since last;
otherwise last is reset to the current time. -/
def stallUpdate (abortTimeoutSecs : ℝ) (s : StallState) (distRemaining now : ℝ) :
    StallState × Prop :=
  if s.prevDistRemaining < distRemaining then
    (⟨distRemaining, s.last⟩, abortTimeoutSecs < now - s.last)
  else
    (⟨s.prevDistRemaining, now⟩, False)

/-- Selection of the obstacle distance for the tick (move_basic.cpp lines
682-689): the background forward distance, replaced by a reverse-sensing
query only when requestedDistance is negative. -/
def obstacleDistSelect (requestedDistance forwardDist reverseDist : ℝ) : ℝ :=
  if requestedDistance < 0 then reverseDist else forwardDist

/-- Result of one tick of the linear controller loop: new state, the
emitted command pair (rotation, velocity) and the loop-exit outcome. -/
structure LinearTickResult where
  state : LinearState
  rotation : ℝ
  velocity : ℝ
  done : Prop
  success : Prop

/-- Embedding of one iteration of the loop body of MoveBasic::moveLinear
(move_basic.cpp lines 645-755).  Inputs: the freshly recomputed goal
offset (x, y) in the base frame, the background forward obstacle distance,
the value a reverse-sensing collision query would return, the polled
preemption flag and the current time.  The sequential velocity / done /
success overwrites (obstacle pause lines 694-716, preempt lines 720-725,
no-progress lines 727-738, finish lines 740-747, sign flip lines 749-751)
are kept in source order, so a later check overwrites an earlier outcome. -/
def linearTick (p : Params) (c : LinearCall) (s : LinearState) (x y : ℝ)
    (forwardObstacleDist reverseObstacleDist : ℝ) (preempt : Bool) (now : ℝ) :
    LinearTickResult :=
  let distRemaining := Real.sqrt (x * x + y * y)
  let lateralDiff := s.lateralError - s.prevLateralError
  let lateralError := p.sideRecoverWeight * y
  let prevLateralError := lateralError
  let lateralIntegral := s.lateralIntegral + lateralError
  let rotation := max (-p.maxLateralVelocity)
    (min p.maxLateralVelocity
      (p.lateralKp * lateralError + p.lateralKi * lateralIntegral +
        p.lateralKd * lateralDiff))
  let obstacleDist :=
    obstacleDistSelect c.requestedDistance forwardObstacleDist reverseObstacleDist
  let v0 := linearVelocity p obstacleDist distRemaining
  let obstacleDetected : Prop := obstacleDist < p.forwardObstacleThreshold
  let v1 := if obstacleDetected then 0 else v0
  let obstacleTime :=
    if obstacleDetected ∧ ¬s.pausingForObstacle then now else s.obstacleTime
  let obstacleAbort : Prop := obstacleDetected ∧ s.pausingForObstacle ∧
    p.obstacleWaitThreshold < now - s.obstacleTime
  let pausingA : Prop := if obstacleDetected then True else s.pausingForObstacle
  let pausingB : Prop := if ¬obstacleDetected ∧ pausingA then False else pausingA
  let v2 := if preempt then 0 else v1
  let stall := stallUpdate p.abortTimeoutSecs ⟨s.prevDistRemaining, s.last⟩ distRemaining now
  let v3 := if stall.2 then 0 else v2
  let finish : Prop := |v3| < p.velThreshold ∧ distRemaining < p.linearTolerance
  let v4 := if finish then 0 else v3
  let done : Prop := if finish then True else
    (if stall.2 then True else (if preempt then True else obstacleAbort))
  let success : Prop := if finish then True else False
  let v5 := if c.forward then v4 else -v4
  ⟨⟨lateralError, prevLateralError, lateralIntegral, stall.1.prevDistRemaining,
    pausingB, stall.1.last, obstacleTime⟩, rotation, v5, done, success⟩

/-- Nonnegative requested distances always select the forward obstacle
distance. -/
theorem obstacleDistSelect_of_nonneg (r fwd rev : ℝ) (h : 0 ≤ r) :
    obstacleDistSelect r fwd rev = fwd := by
  simp only [obstacleDistSelect, if_neg (not_lt.mpr h)]

/-- Claim C1: the requested distance computed at entry of moveLinear is a
Euclidean norm, hence never negative, so the guard of the reverse-sensing
collision query (requestedDistance below zero, line 683) never fires: the
whole tick result is independent of what a reverse-sensing query would
return, and the forward obstacle distance is selected even for a backward
motion such as a goal at x = -1 (for which forward is false). -/
theorem reverse_sensing_variant_never_queried (x y z : ℝ) (p : Params)
    (s : LinearState) (xc yc fwd rev1 rev2 : ℝ) (preempt : Bool) (now : ℝ) :
    linearTick p (linearCallOf x y z) s xc yc fwd rev1 preempt now =
      linearTick p (linearCallOf x y z) s xc yc fwd rev2 preempt now ∧
    obstacleDistSelect (linearCallOf x y z).requestedDistance fwd rev1 = fwd ∧
    ¬(linearCallOf (-1) 0 0).forward := by
  have hreq : (0:ℝ) ≤ (linearCallOf x y z).requestedDistance := Real.sqrt_nonneg _
  refine ⟨?_, obstacleDistSelect_of_nonneg _ _ _ hreq, ?_⟩
  · simp only [linearTick, obstacleDistSelect_of_nonneg _ _ _ hreq]
  · simp only [linearCallOf]
    norm_num

/-- Witness for reverse_sensing_variant_never_queried at a concrete
backward goal: a goal one meter behind the robot keeps forward false, yet
the tick ignores the reverse-sensing value and uses the forward obstacle
distance. -/
theorem reverse_sensing_variant_never_queried_witness :
    linearTick defaultParams (linearCallOf (-1) 0 0) (initialLinearState 1 0)
        1 0 100 7 false 1 =
      linearTick defaultParams (linearCallOf (-1) 0 0) (initialLinearState 1 0)
        1 0 100 9 false 1 ∧
    obstacleDistSelect (linearCallOf (-1) 0 0).requestedDistance 100 7 = 100 ∧
    ¬(linearCallOf (-1) 0 0).forward :=
  reverse_sensing_variant_never_queried (-1) 0 0 defaultParams
    (initialLinearState 1 0) 1 0 100 7 9 false 1


/-- Claim C2 as amended: on any tick on which preemption is requested both
controllers stop (done holds) with the linear velocity forced to zero, but
the outcome is failure only when the finish condition does not also hold
on the same tick: the checks run in source order (obstacle-wait abort,
preempt, no-progress abort, then finish) with each later check overwriting
the outcome of the earlier ones, so the finish check effectively has the
highest priority and a preempted tick that is already within tolerance
reports success. -/
theorem exit_priority_last_writer_wins (p : Params)
    (requestedYaw currentYaw : ℝ) (obstacleAngle : Bool → ℝ)
    (c : LinearCall) (s : LinearState) (x y fwd rev now : ℝ) :
    (rotateTick p requestedYaw currentYaw obstacleAngle true).done ∧
    ((rotateTick p requestedYaw currentYaw obstacleAngle true).success ↔
      |normalizeAngle (requestedYaw - currentYaw)| < p.angularTolerance) ∧
    (linearTick p c s x y fwd rev true now).done ∧
    ((linearTick p c s x y fwd rev true now).success ↔
      (0 < p.velThreshold ∧ Real.sqrt (x * x + y * y) < p.linearTolerance)) := by
  refine ⟨?_, ?_, ?_, ?_⟩
  · simp only [rotateTick]
    split_ifs
  · simp only [rotateTick]
    split_ifs with hf
    · simp [hf]
    · simp [hf]
  · simp only [linearTick]
    split_ifs
  · simp only [linearTick, eq_self_iff_true, if_true, ite_self, abs_zero]
    split_ifs with hf
    · simp [hf]
    · simp [hf]

/-- Claim C3: the derivative term of the lateral PID never contributes.
The code computes lateralDiff from the previous lateralError and
prevLateralError before updating them, and prevLateralError is assigned
the identical value as lateralError within the same tick (lines 659-661),
so the two stored values are always equal: they start equal at entry, stay
equal after every tick, and whenever they are equal the emitted rotation
is the clamp of the proportional and integral terms alone, independent of
lateralKd. -/
theorem lateral_derivative_term_vanishes (p : Params) (c : LinearCall)
    (s : LinearState) (x y fwd rev : ℝ) (preempt : Bool) (now rd n0 : ℝ) :
    ((linearTick p c s x y fwd rev preempt now).state.prevLateralError =
      (linearTick p c s x y fwd rev preempt now).state.lateralError) ∧
    ((initialLinearState rd n0).prevLateralError =
      (initialLinearState rd n0).lateralError) ∧
    (s.prevLateralError = s.lateralError →
      (linearTick p c s x y fwd rev preempt now).rotation =
        max (-p.maxLateralVelocity) (min p.maxLateralVelocity
          (p.lateralKp * (p.sideRecoverWeight * y) +
           p.lateralKi * (s.lateralIntegral + p.sideRecoverWeight * y)))) := by
  refine ⟨by simp [linearTick], rfl, ?_⟩
  intro h
  simp [linearTick, h, sub_self]

/-- Parameters exhibiting the dead derivative term: proportional and
integral gains zero, derivative gain one, unit side-recover weight, wide
lateral clamp; other fields as defaultParams. -/
def pidTestParams : Params :=
  ⟨0.02, 1.0, 0.3, 0.01, 10, 0.5, 0.1, 0.1, 0, 0, 1, 1.0, 2.5,
   0.1, 5.0, 60.0, 0.5, 1, 0.5⟩

/-- Witness for lateral_derivative_term_vanishes: at the initial state the
two stored errors are equal, and a tick whose lateral offset jumps from 0
to 1 under pidTestParams (derivative gain 1, other gains 0) emits the
rotation given by the derivative-free formula, which is zero rather than
the derivative response the claim predicts. -/
theorem lateral_derivative_term_vanishes_witness :
    (initialLinearState 5 0).prevLateralError =
      (initialLinearState 5 0).lateralError ∧
    (linearTick pidTestParams (linearCallOf 5 0 0) (initialLinearState 5 0)
        4 1 100 100 false 1).rotation =
      max (-pidTestParams.maxLateralVelocity) (min pidTestParams.maxLateralVelocity
        (pidTestParams.lateralKp * (pidTestParams.sideRecoverWeight * 1) +
         pidTestParams.lateralKi *
           ((initialLinearState 5 0).lateralIntegral +
             pidTestParams.sideRecoverWeight * 1))) :=
  ⟨rfl, (lateral_derivative_term_vanishes pidTestParams (linearCallOf 5 0 0)
    (initialLinearState 5 0) 4 1 100 100 false 1 5 0).2.2 rfl⟩

/-- State of the no-progress monitor as the specification describes it.
Modelled from the spec: a low-water-mark (best distance-remaining achieved
so far) and the time of the last improvement. -/
structure SpecStallState where
  lowWaterMark : ℝ
  lastImprovement : ℝ

/-- Modelled from the spec (sections 4.5 step 6 and 8): a tick that sets a
new low-water-mark records it and resets the timer; otherwise the call
aborts when distRemaining exceeds the low-water-mark and more than
abortTimeoutSecs has elapsed since the last improvement.  This definition
follows the words of the specification and is compared with stallUpdate,
which is embedded from the code. -/
def specStallStep (abortTimeoutSecs : ℝ) (s : SpecStallState) (distRemaining now : ℝ) :
    SpecStallState × Prop :=
  if distRemaining < s.lowWaterMark then (⟨distRemaining, now⟩, False)
  else (s, s.lowWaterMark < distRemaining ∧
    abortTimeoutSecs < now - s.lastImprovement)

/-- Claim C4, counterexample: starting from requested distance 5 with
timeout 5, a tick improving to distance 3 at time 1 followed by a tick at
distance 4 at time 7 (above the low-water-mark 3, more than 5 seconds
after the improvement) must abort according to the claim, and the
specification model does abort; the code monitor does not, because its
recorded value is a running maximum (still 5) and any tick not exceeding
it resets the timer. -/
theorem stall_timer_resets_without_improvement :
    ¬(stallUpdate 5 ⟨5, 0⟩ 3 1).2 ∧
    ¬(stallUpdate 5 (stallUpdate 5 ⟨5, 0⟩ 3 1).1 4 7).2 ∧
    (specStallStep 5 (specStallStep 5 ⟨5, 0⟩ 3 1).1 4 7).2 := by
  norm_num [stallUpdate, specStallStep]

/-- Run of the no-progress monitor over a list of (distRemaining, time)
ticks, recording whether any tick aborted. -/
def stallRun (T : ℝ) : StallState → List (ℝ × ℝ) → StallState × Prop
  | s, [] => (s, False)
  | s, (d, t) :: rest =>
      let step := stallUpdate T s d t
      let restRun := stallRun T step.1 rest
      (restRun.1, step.2 ∨ restRun.2)

/-- Each listed distance strictly exceeds every one before it and the
given starting value. -/
def strictlyExceeds : ℝ → List (ℝ × ℝ) → Prop
  | _, [] => True
  | p0, (d, _) :: rest => p0 < d ∧ strictlyExceeds d rest

/-- Over a strictly increasing run the last-progress timestamp is never
reset, and the monitor aborts exactly when some tick falls more than the
timeout after the starting timestamp. -/
theorem stallRun_strict (T : ℝ) : ∀ (l : List (ℝ × ℝ)) (s : StallState),
    strictlyExceeds s.prevDistRemaining l →
    (stallRun T s l).1.last = s.last ∧
    ((stallRun T s l).2 ↔ ∃ q ∈ l, T < q.2 - s.last) := by
  intro l
  induction l with
  | nil => intro s _; simp [stallRun]
  | cons q rest ih =>
      intro s h
      obtain ⟨d, t⟩ := q
      obtain ⟨hd, hrest⟩ := h
      have hstep : stallUpdate T ⟨s.prevDistRemaining, s.last⟩ d t =
          (⟨d, s.last⟩, T < t - s.last) := by
        simp [stallUpdate, if_pos hd]
      have ihr := ih ⟨d, s.last⟩ hrest
      simp only [stallRun]
      have hs : stallUpdate T s d t = (⟨d, s.last⟩, T < t - s.last) := by
        simp [stallUpdate, if_pos hd]
      rw [hs]
      refine ⟨ihr.1, ?_⟩
      rw [ihr.2]
      simp [List.mem_cons, exists_eq_or_imp]

/-- Claim C4 as amended: the recorded value of the no-progress monitor is
a running maximum, raised whenever distRemaining exceeds it; a tick aborts
exactly when distRemaining exceeds the recorded maximum and more than
abortTimeoutSecs has elapsed since the timer was last reset, and the timer
is reset on every tick on which distRemaining does not exceed the maximum
(not only on improvements).  Consequently a run whose distRemaining
strictly increases on every tick keeps the original timestamp and aborts
as soon as a tick falls more than the timeout after it. -/
theorem stall_abort_characterization :
    (∀ (T : ℝ) (s : StallState) (d now : ℝ),
      ((stallUpdate T s d now).2 ↔
        (s.prevDistRemaining < d ∧ T < now - s.last)) ∧
      (stallUpdate T s d now).1.prevDistRemaining = max s.prevDistRemaining d ∧
      (stallUpdate T s d now).1.last =
        if s.prevDistRemaining < d then s.last else now) ∧
    (∀ (T : ℝ) (s : StallState) (l : List (ℝ × ℝ)),
      strictlyExceeds s.prevDistRemaining l →
      (∃ q ∈ l, T < q.2 - s.last) → (stallRun T s l).2) := by
  constructor
  · intro T s d now
    refine ⟨?_, ?_, ?_⟩
    · simp only [stallUpdate]
      split_ifs with hd
      · exact ⟨fun h => ⟨hd, h⟩, fun h => h.2⟩
      · simp [hd]
    · simp only [stallUpdate]
      split_ifs with hd
      · exact (max_eq_right (le_of_lt hd)).symm
      · exact (max_eq_left (not_lt.mp hd)).symm
    · simp only [stallUpdate]
      split_ifs with hd
      · rfl
      · rfl
  · intro T s l hex hq
    exact ((stallRun_strict T l s hex).2).mpr hq

/-- Witness for stall_abort_characterization: a concrete strictly
increasing run (distances 6 then 7 at times 1 and 10, starting value 5,
timeout 5) satisfies both hypotheses and aborts. -/
theorem stall_abort_characterization_witness :
    strictlyExceeds (StallState.mk 5 0).prevDistRemaining
      [((6:ℝ), (1:ℝ)), (7, 10)] ∧
    (∃ q ∈ [((6:ℝ), (1:ℝ)), (7, 10)],
      (5:ℝ) < q.2 - (StallState.mk 5 0).last) ∧
    (stallRun 5 ⟨5, 0⟩ [((6:ℝ), (1:ℝ)), (7, 10)]).2 := by
  have h1 : strictlyExceeds (StallState.mk 5 0).prevDistRemaining
      [((6:ℝ), (1:ℝ)), (7, 10)] := by
    norm_num [strictlyExceeds]
  have h2 : ∃ q ∈ [((6:ℝ), (1:ℝ)), (7, 10)],
      (5:ℝ) < q.2 - (StallState.mk 5 0).last := by
    refine ⟨(7, 10), ?_, ?_⟩ <;> norm_num
  exact ⟨h1, h2, stall_abort_characterization.2 5 ⟨5, 0⟩ _ h1 h2⟩

/-- Claim C10: every command the linear controller emits carries the
clamped lateral-PID value as its rotation component, whatever the pause,
preempt, abort or finish situation of the tick is; on any tick that
terminates the call, only the linear velocity component is forced to
zero. -/
theorem rotation_component_always_pid (p : Params) (c : LinearCall)
    (s : LinearState) (x y fwd rev : ℝ) (preempt : Bool) (now : ℝ) :
    (linearTick p c s x y fwd rev preempt now).rotation =
      max (-p.maxLateralVelocity) (min p.maxLateralVelocity
        (p.lateralKp * (p.sideRecoverWeight * y) +
         p.lateralKi * (s.lateralIntegral + p.sideRecoverWeight * y) +
         p.lateralKd * (s.lateralError - s.prevLateralError))) ∧
    ((linearTick p c s x y fwd rev preempt now).done →
      (linearTick p c s x y fwd rev preempt now).velocity = 0) := by
  constructor
  · simp [linearTick]
  · intro h
    simp only [linearTick] at h ⊢
    split_ifs at h ⊢ <;>
      first
      | rfl
      | exact neg_zero
      | exact h.elim
      | exact absurd h.1 (by assumption)

/-- Witness for rotation_component_always_pid: a preempted tick is done
and its emitted linear velocity is zero. -/
theorem rotation_component_always_pid_witness :
    (linearTick defaultParams (linearCallOf 1 0 0) (initialLinearState 1 0)
      1 0 100 100 true 1).done ∧
    (linearTick defaultParams (linearCallOf 1 0 0) (initialLinearState 1 0)
      1 0 100 100 true 1).velocity = 0 := by
  have hd : (linearTick defaultParams (linearCallOf 1 0 0)
      (initialLinearState 1 0) 1 0 100 100 true 1).done := by
    simp only [linearTick]
    split_ifs
  exact ⟨hd, (rotation_component_always_pid defaultParams (linearCallOf 1 0 0)
    (initialLinearState 1 0) 1 0 100 100 true 1).2 hd⟩

/-- Names of reference frames taking part in the driving-frame fallback
logic; an enumeration standing in for the frame-id strings of the node
configuration (map and odom are the default preferred and alternate
driving frames, base the robot base frame). -/
inductive Frame where
  | map
  | odom
  | base
deriving DecidableEq

/-- Embedding of the driving-frame resolution performed by executeAction
(move_basic.cpp lines 434-448): one lookup attempt of the preferred
driving frame to base, on failure one attempt of the alternate, on failure
the goal is aborted (none).  The transform provider is abstracted as an
availability predicate avail from-frame to-frame. -/
def resolveDrivingFrame {F : Type} (avail : F → F → Bool)
    (preferredDrivingFrame alternateDrivingFrame baseFrame : F) : Option F :=
  if avail preferredDrivingFrame baseFrame then some preferredDrivingFrame
  else if avail alternateDrivingFrame baseFrame then some alternateDrivingFrame
  else none

/-- Embedding of the transform fetch at entry of moveLinear
(move_basic.cpp lines 619-623): a single lookup of the already-chosen
driving frame to base; on failure the call aborts, and no fallback to the
other driving frame is attempted. -/
def moveLinearPoseCheck {F : Type} (avail : F → F → Bool)
    (drivingFrame baseFrame : F) : Bool :=
  avail drivingFrame baseFrame

/-- Resolution the specification asserts for translation start.  Modelled
from the spec (section 4.2), which says the preferred/alternate
driving-frame resolution is repeated at translation start; moveLinear
itself contains no such re-resolution, so this definition follows the
words of the specification and is compared with moveLinearPoseCheck. -/
def specTranslationStartResolution {F : Type} (avail : F → F → Bool)
    (preferredDrivingFrame alternateDrivingFrame baseFrame : F) : Option F :=
  resolveDrivingFrame avail preferredDrivingFrame alternateDrivingFrame baseFrame

/-- Transform availability at goal start in the recovery scenario: only
odom to base is known, so the goal starts driving in odom. -/
def availAtGoalStart : Frame → Frame → Bool
  | Frame.odom, Frame.base => true
  | _, _ => false

/-- Transform availability at translation start in the recovery scenario:
the preferred map frame has recovered while odom has dropped out. -/
def availAtTranslationStart : Frame → Frame → Bool
  | Frame.map, Frame.base => true
  | _, _ => false

/-- Claim C5, counterexample: with the preferred map frame unavailable at
goal start, the goal is resolved to drive in odom; when map later recovers
and odom drops out, the claimed re-resolution at translation start would
pick map, but the code merely re-fetches the odom transform, which fails,
so the goal is aborted instead of using the recovered frame. -/
theorem translation_start_no_reresolution :
    resolveDrivingFrame availAtGoalStart Frame.map Frame.odom Frame.base =
      some Frame.odom ∧
    moveLinearPoseCheck availAtTranslationStart Frame.odom Frame.base = false ∧
    specTranslationStartResolution availAtTranslationStart Frame.map Frame.odom
      Frame.base = some Frame.map := by
  refine ⟨rfl, rfl, rfl⟩

/-- Claim C5 as amended: the preferred/alternate fallback resolution of
the driving frame is performed once per goal in executeAction (preferred
first, alternate on failure, goal failure when both are unavailable),
while at translation start moveLinear performs only a single fetch of the
transform for the frame chosen earlier, succeeding exactly when that one
frame is available. -/
theorem driving_frame_resolution_once {F : Type} (avail : F → F → Bool)
    (pf af bf : F) :
    (avail pf bf = true → resolveDrivingFrame avail pf af bf = some pf) ∧
    (avail pf bf = false → avail af bf = true →
      resolveDrivingFrame avail pf af bf = some af) ∧
    (avail pf bf = false → avail af bf = false →
      resolveDrivingFrame avail pf af bf = none) ∧
    (∀ df, moveLinearPoseCheck avail df bf = true ↔ avail df bf = true) := by
  refine ⟨?_, ?_, ?_, fun df => Iff.rfl⟩
  · intro h; simp [resolveDrivingFrame, h]
  · intro h1 h2; simp [resolveDrivingFrame, h1, h2]
  · intro h1 h2; simp [resolveDrivingFrame, h1, h2]

/-- Witness for driving_frame_resolution_once: the goal-start availability
of the recovery scenario satisfies the fallback hypotheses and resolves to
the alternate frame. -/
theorem driving_frame_resolution_once_witness :
    availAtGoalStart Frame.map Frame.base = false ∧
    availAtGoalStart Frame.odom Frame.base = true ∧
    resolveDrivingFrame availAtGoalStart Frame.map Frame.odom Frame.base =
      some Frame.odom :=
  ⟨rfl, rfl,
    (driving_frame_resolution_once availAtGoalStart Frame.map Frame.odom
      Frame.base).2.1 rfl rfl⟩

/-- Atan2 as invoked by executeAction (move_basic.cpp line 475): the
argument angle of the planar point (x, y). -/
def atan2 (y x : ℝ) : ℝ := Complex.arg ⟨x, y⟩

/-- Embedding of the reverseWithoutTurning decision (move_basic.cpp lines
463-467): the goal offset in the base frame has its z component zeroed,
dist is its norm, and the flag holds when the threshold exceeds dist and
the x component is negative. -/
def reverseWithoutTurning (reverseWithoutTurningThreshold x y : ℝ) : Prop :=
  reverseWithoutTurningThreshold > Real.sqrt (x * x + y * y) ∧ x < 0

/-- Embedding of the mirroring applied to requestedYaw when
reverseWithoutTurning holds (move_basic.cpp lines 476-483): for a positive
yaw the target becomes -pi + yaw, otherwise pi - yaw. -/
def mirroredYaw (requestedYaw : ℝ) : ℝ :=
  if requestedYaw > 0 then -Real.pi + requestedYaw else Real.pi - requestedYaw

/-- Heading target of the initial rotation phase (move_basic.cpp lines
474-490): atan2 of the goal offset, mirrored when reverseWithoutTurning
holds. -/
def initialRotationTarget (reverseWithoutTurningThreshold x y : ℝ) : ℝ :=
  let requestedYaw := atan2 y x
  if reverseWithoutTurning reverseWithoutTurningThreshold x y then
    mirroredYaw requestedYaw
  else requestedYaw

/-- Value of atan2 at the counterexample goal offset (-1, 1). -/
theorem atan2_one_neg_one : atan2 1 (-1) = 3 * Real.pi / 4 := by
  have hre : ((⟨-1, 1⟩ : ℂ)).re < 0 := by
    show (-1 : ℝ) < 0
    norm_num
  have him : 0 ≤ ((⟨-1, 1⟩ : ℂ)).im := by
    show (0 : ℝ) ≤ 1
    norm_num
  have habs : Complex.abs ⟨-1, 1⟩ = Real.sqrt 2 := by
    rw [Complex.abs_apply, Complex.normSq_mk]
    norm_num
  have hval : ((-(⟨-1, 1⟩ : ℂ)).im / Complex.abs ⟨-1, 1⟩) = -1 / Real.sqrt 2 := by
    rw [habs, Complex.neg_im]
  have hsq : (-1 : ℝ) / Real.sqrt 2 = -(Real.sqrt 2 / 2) := by
    have hne : Real.sqrt 2 ≠ 0 := by positivity
    field_simp
  have harcsin : Real.arcsin (-1 / Real.sqrt 2) = -(Real.pi / 4) := by
    rw [hsq, Real.arcsin_neg,
      show Real.sqrt 2 / 2 = Real.sin (Real.pi / 4) from Real.sin_pi_div_four.symm,
      Real.arcsin_sin (by linarith [Real.pi_pos]) (by linarith [Real.pi_pos])]
  simp only [atan2]
  rw [Complex.arg_of_re_neg_of_im_nonneg hre him, hval, harcsin]
  ring

/-- Claim C8, counterexample: the goal offset (-1, 1) with threshold 2 is
a reverse-without-turning case (distance sqrt 2 below 2, x negative), its
atan2 yaw is 3*pi/4, and the code mirrors it to -pi/4, which differs from
the pi - yaw = pi/4 value the claim states for the heading target. -/
theorem mirrored_target_not_pi_minus_yaw :
    initialRotationTarget 2 (-1) 1 ≠ Real.pi - atan2 1 (-1) := by
  have hpi := Real.pi_pos
  have hrev : reverseWithoutTurning 2 (-1) 1 := by
    have h4 : Real.sqrt 4 = 2 := by
      rw [show (4:ℝ) = 2 ^ 2 by norm_num]
      exact Real.sqrt_sq (by norm_num)
    have hs2 : Real.sqrt 2 < 2 := by
      have hlt := Real.sqrt_lt_sqrt (by norm_num : (0:ℝ) ≤ 2) (by norm_num : (2:ℝ) < 4)
      rw [h4] at hlt
      exact hlt
    constructor
    · show Real.sqrt ((-1) * (-1) + 1 * 1) < 2
      rw [show ((-1:ℝ) * (-1) + 1 * 1) = 2 by norm_num]
      exact hs2
    · norm_num
  have hyaw := atan2_one_neg_one
  simp only [initialRotationTarget, if_pos hrev, mirroredYaw, hyaw]
  rw [if_pos (by linarith : 3 * Real.pi / 4 > 0)]
  intro hcontra
  have : Real.pi = 0 := by linarith
  linarith

/-- Claim C8 as amended: reverseWithoutTurning holds exactly when the
planar distance to the goal is strictly below the threshold and the x
coordinate of the goal in the base frame is negative; when it holds, the
heading target of the rotation phases is the mirrored yaw, which equals
yaw - pi for positive yaw and pi - yaw otherwise (not pi - yaw in both
cases), and when it does not hold the target is the atan2 yaw itself. -/
theorem reverse_without_turning_characterization
    (threshold x y : ℝ) :
    (reverseWithoutTurning threshold x y ↔
      (Real.sqrt (x * x + y * y) < threshold ∧ x < 0)) ∧
    (∀ ryaw : ℝ, 0 < ryaw → mirroredYaw ryaw = ryaw - Real.pi) ∧
    (∀ ryaw : ℝ, ¬0 < ryaw → mirroredYaw ryaw = Real.pi - ryaw) ∧
    (reverseWithoutTurning threshold x y →
      initialRotationTarget threshold x y = mirroredYaw (atan2 y x)) ∧
    (¬reverseWithoutTurning threshold x y →
      initialRotationTarget threshold x y = atan2 y x) := by
  refine ⟨Iff.rfl, ?_, ?_, ?_, ?_⟩
  · intro ryaw h
    simp only [mirroredYaw, if_pos h]
    ring
  · intro ryaw h
    simp only [mirroredYaw, if_neg h]
  · intro h
    simp only [initialRotationTarget, if_pos h]
  · intro h
    simp only [initialRotationTarget, if_neg h]

/-- Witness for reverse_without_turning_characterization at the concrete
reverse-without-turning goal offset (-1, 1) with threshold 2. -/
theorem reverse_without_turning_characterization_witness :
    reverseWithoutTurning 2 (-1) 1 ∧
    initialRotationTarget 2 (-1) 1 = mirroredYaw (atan2 1 (-1)) := by
  have hrev : reverseWithoutTurning 2 (-1) 1 := by
    have h4 : Real.sqrt 4 = 2 := by
      rw [show (4:ℝ) = 2 ^ 2 by norm_num]
      exact Real.sqrt_sq (by norm_num)
    have hs2 : Real.sqrt 2 < 2 := by
      have hlt := Real.sqrt_lt_sqrt (by norm_num : (0:ℝ) ≤ 2) (by norm_num : (2:ℝ) < 4)
      rw [h4] at hlt
      exact hlt
    constructor
    · show Real.sqrt ((-1) * (-1) + 1 * 1) < 2
      rw [show ((-1:ℝ) * (-1) + 1 * 1) = 2 by norm_num]
      exact hs2
    · norm_num
  exact ⟨hrev,
    (reverse_without_turning_characterization 2 (-1) 1).2.2.2.1 hrev⟩

end

end MoveBasic
